import Mathlib

/-!
Verification of the document data-extraction service in `main.py` against its
natural-language specification.

The development shallowly embeds the module: pure helpers (`validate_pdf`,
`validate_image`, `detect_document_type`, the fence-stripping/JSON-parsing
logic of the extraction helper) are translated into executable Lean functions;
the external collaborators (PyMuPDF's PDF opening and rasterization, PIL image
decoding, and the two generative-inference calls) are abstracted as an
`Oracles` record of functions, with `Option` results standing for Python
exceptions raised inside the corresponding `try` blocks.  The FastAPI route
handler is embedded as `extract_data_route`, including the fact that the path
parameter `file` is bound as a `str` (so attribute accesses such as
`file.read()` fail), the module-level rebinding of the name `extract_data`,
and the `try/except` mapping of `HTTPException` and generic exceptions to
JSON responses.  External calls performed by a run are logged in a trace of
`ExtCall` tags so that "never invokes X" properties are statable.
-/

/-- Byte buffers (Python `bytes`) are modelled as lists of naturals. -/
abbrev Bytes := List Nat

/-- Does the first list lead the second, i.e. is it an initial segment of it?
Used to model Python substring search. -/
def listLeads : List Char → List Char → Bool
  | [], _ => true
  | _ :: _, [] => false
  | a :: as, b :: bs => a == b && listLeads as bs

/-- Does the first list occur contiguously anywhere inside the second?
Models Python's `needle in haystack` test on strings. -/
def hasSub (n : List Char) : List Char → Bool
  | [] => listLeads n []
  | c :: cs => listLeads n (c :: cs) || hasSub n cs

/-- Models Python `str.lower()` (the source only relies on ASCII case folding:
every classifier keyword is ASCII). -/
def pyLower (s : String) : String := String.mk (s.data.map Char.toLower)

/-- Models Python `str.endswith(suffixStr)`. -/
def pyEndsWith (s suffixStr : String) : Bool :=
  listLeads suffixStr.data.reverse s.data.reverse

/-- The whitespace characters removed by Python `str.strip()`. -/
def pySpace (c : Char) : Bool :=
  c == ' ' || c == '\t' || c == '\n' || c == '\r' || c == '\x0b' || c == '\x0c'

/-- Models Python `str.strip()` with no argument. -/
def pyStrip (s : String) : String :=
  String.mk (((s.data.dropWhile pySpace).reverse.dropWhile pySpace).reverse)

/-- Fuel-driven worker for `pyDeleteAll`: deletes every non-overlapping
occurrence of `old` scanning left to right.  The fuel is instantiated with the
haystack length, which suffices because each step consumes at least one
character.  `old` is always non-empty at call sites. -/
def deleteAllAux (old : List Char) : Nat → List Char → List Char
  | _, [] => []
  | 0, h => h
  | fuel + 1, c :: cs =>
    if listLeads old (c :: cs) then
      deleteAllAux old fuel (List.drop (old.length - 1) cs)
    else
      c :: deleteAllAux old fuel cs

/-- Models Python `s.replace(old, '')` for a non-empty `old`: every
non-overlapping occurrence of `old` is removed, scanning left to right. -/
def pyDeleteAll (old : String) (s : String) : String :=
  String.mk (deleteAllAux old.data s.data.length s.data)

/-- JSON values as produced by Python's `json.loads`.  Numbers are kept as
their source lexeme, which is enough to decide Python truthiness. -/
inductive JsonVal where
  | jnull : JsonVal
  | jbool (b : Bool) : JsonVal
  | jnum (lexeme : String) : JsonVal
  | jstr (s : String) : JsonVal
  | jarr (items : List JsonVal) : JsonVal
  | jobj (fields : List (String × JsonVal)) : JsonVal

/-- Is the JSON value an object (a Python `dict`)? -/
def isObj : JsonVal → Bool
  | .jobj _ => true
  | _ => false

/-- Does the number lexeme denote zero?  True exactly when no nonzero digit
occurs before the exponent marker, which for the JSON number grammar
characterizes the value zero. -/
def numLexIsZero (lex : String) : Bool :=
  (lex.data.takeWhile (fun c => c != 'e' && c != 'E')).all
    (fun c => !c.isDigit || c == '0')

/-- Python truthiness of a decoded JSON value (`bool(v)`): `None`, `False`,
zero, and empty strings/lists/dicts are falsy. -/
def jsonTruthy : JsonVal → Bool
  | .jnull => false
  | .jbool b => b
  | .jnum lex => !numLexIsZero lex
  | .jstr s => !s.isEmpty
  | .jarr items => !items.isEmpty
  | .jobj fields => !fields.isEmpty

/-- JSON insignificant whitespace, skipped between tokens. -/
def skipWs : List Char → List Char
  | [] => []
  | c :: cs => if c == ' ' || c == '\t' || c == '\n' || c == '\r' then skipWs cs else c :: cs

/-- Value of a hexadecimal digit, if any. -/
def hexVal (c : Char) : Option Nat :=
  if c.isDigit then some (c.toNat - 48)
  else if 'a' ≤ c && c ≤ 'f' then some (c.toNat - 87)
  else if 'A' ≤ c && c ≤ 'F' then some (c.toNat - 55)
  else none

/-- Parses the body of a JSON string literal (the opening quote already
consumed), handling the escape sequences accepted by Python's strict-mode
`json.loads`; raw control characters are rejected.  Fuel-driven; fuel is
instantiated to exceed the input length. -/
def parseStrAux : Nat → List Char → List Char → Option (String × List Char)
  | 0, _, _ => none
  | _ + 1, _, [] => none
  | fuel + 1, acc, c :: cs =>
    if c == '"' then some (String.mk acc.reverse, cs)
    else if c == '\\' then
      match cs with
      | [] => none
      | e :: rest =>
        if e == '"' then parseStrAux fuel ('"' :: acc) rest
        else if e == '\\' then parseStrAux fuel ('\\' :: acc) rest
        else if e == '/' then parseStrAux fuel ('/' :: acc) rest
        else if e == 'b' then parseStrAux fuel ('\x08' :: acc) rest
        else if e == 'f' then parseStrAux fuel ('\x0c' :: acc) rest
        else if e == 'n' then parseStrAux fuel ('\n' :: acc) rest
        else if e == 'r' then parseStrAux fuel ('\r' :: acc) rest
        else if e == 't' then parseStrAux fuel ('\t' :: acc) rest
        else if e == 'u' then
          match rest with
          | h1 :: h2 :: h3 :: h4 :: rest2 =>
            match hexVal h1, hexVal h2, hexVal h3, hexVal h4 with
            | some a, some b, some c3, some d =>
              let n := ((a * 16 + b) * 16 + c3) * 16 + d
              if n < 0xd800 then parseStrAux fuel (Char.ofNat n :: acc) rest2
              else none
            | _, _, _, _ => none
          | _ => none
        else none
    else if c.toNat < 0x20 then none
    else parseStrAux fuel (c :: acc) cs

/-- Parses the optional exponent part of a JSON number, extending the lexeme. -/
def parseExpPart (acc : List Char) (cs : List Char) : Option (String × List Char) :=
  match cs with
  | e :: r =>
    if e == 'e' || e == 'E' then
      let signAndRest : List Char × List Char :=
        match r with
        | '+' :: r2 => (['+'], r2)
        | '-' :: r2 => (['-'], r2)
        | _ => ([], r)
      match signAndRest.2.span Char.isDigit with
      | ([], _) => none
      | (ds, r2) => some (String.mk (acc ++ [e] ++ signAndRest.1 ++ ds), r2)
    else some (String.mk acc, cs)
  | [] => some (String.mk acc, [])

/-- Parses the optional fraction part of a JSON number, then the exponent. -/
def parseFracPart (acc : List Char) (cs : List Char) : Option (String × List Char) :=
  match cs with
  | '.' :: r =>
    match r.span Char.isDigit with
    | ([], _) => none
    | (ds, r2) => parseExpPart (acc ++ '.' :: ds) r2
  | _ => parseExpPart acc cs

/-- Parses a JSON number lexeme (strict grammar: optional minus, integer part
without redundant leading zeros, optional fraction and exponent). -/
def parseNumLex (cs : List Char) : Option (String × List Char) :=
  let signAndRest : List Char × List Char :=
    match cs with
    | '-' :: r => (['-'], r)
    | _ => ([], cs)
  match signAndRest.2 with
  | c :: r =>
    if c == '0' then parseFracPart (signAndRest.1 ++ ['0']) r
    else if c.isDigit then
      match r.span Char.isDigit with
      | (ds, r2) => parseFracPart (signAndRest.1 ++ c :: ds) r2
    else none
  | [] => none

/-- Work items of the JSON parser: a value, the fields of an object after its
opening brace, or the items of an array after its opening bracket. -/
inductive PJob where
  | pval (cs : List Char) : PJob
  | pfields (acc : List (String × JsonVal)) (cs : List Char) : PJob
  | pitems (acc : List JsonVal) (cs : List Char) : PJob

/-- Single fuel-driven recursion implementing the mutually recursive JSON
parser for values, object fields and array items.  Fuel is instantiated to
exceed the input length, which suffices because every recursive call follows
the consumption of at least one character. -/
def parseStep : Nat → PJob → Option (JsonVal × List Char)
  | 0, _ => none
  | fuel + 1, .pval cs0 =>
    match skipWs cs0 with
    | [] => none
    | c :: r =>
      if c == '"' then
        (parseStrAux (r.length + 1) [] r).map (fun p => (.jstr p.1, p.2))
      else if c == '\x7b' then
        match skipWs r with
        | '\x7d' :: r2 => some (.jobj [], r2)
        | r2 => parseStep fuel (.pfields [] r2)
      else if c == '[' then
        match skipWs r with
        | ']' :: r2 => some (.jarr [], r2)
        | r2 => parseStep fuel (.pitems [] r2)
      else if c == 'n' then
        match r with
        | 'u' :: 'l' :: 'l' :: r2 => some (.jnull, r2)
        | _ => none
      else if c == 't' then
        match r with
        | 'r' :: 'u' :: 'e' :: r2 => some (.jbool true, r2)
        | _ => none
      else if c == 'f' then
        match r with
        | 'a' :: 'l' :: 's' :: 'e' :: r2 => some (.jbool false, r2)
        | _ => none
      else if c == '-' || c.isDigit then
        (parseNumLex (c :: r)).map (fun p => (.jnum p.1, p.2))
      else none
  | fuel + 1, .pfields acc cs =>
    match skipWs cs with
    | '"' :: r =>
      match parseStrAux (r.length + 1) [] r with
      | none => none
      | some (key, r2) =>
        match skipWs r2 with
        | ':' :: r3 =>
          match parseStep fuel (.pval r3) with
          | none => none
          | some (v, r4) =>
            match skipWs r4 with
            | ',' :: r5 => parseStep fuel (.pfields ((key, v) :: acc) r5)
            | '\x7d' :: r5 => some (.jobj ((key, v) :: acc).reverse, r5)
            | _ => none
        | _ => none
    | _ => none
  | fuel + 1, .pitems acc cs =>
    match parseStep fuel (.pval cs) with
    | none => none
    | some (v, r) =>
      match skipWs r with
      | ',' :: r2 => parseStep fuel (.pitems (v :: acc) r2)
      | ']' :: r2 => some (.jarr (v :: acc).reverse, r2)
      | _ => none

/-- Models Python `json.loads`: parse one JSON value and require only
whitespace to remain; any failure models the `json.JSONDecodeError` raised by
the library (caught by the extraction helper's `except` clause). -/
def pyJsonLoads (s : String) : Option JsonVal :=
  match parseStep (s.length + 1) (.pval s.data) with
  | some (v, rest) => if (skipWs rest).isEmpty then some v else none
  | none => none

example : pyJsonLoads "\x7b\"name\": \"X\"\x7d" = some (.jobj [("name", .jstr "X")]) := rfl
example : pyJsonLoads "[1]" = some (.jarr [.jnum "1"]) := rfl
example : pyJsonLoads "[1," = none := rfl
example : pyJsonLoads " true " = some (.jbool true) := rfl
example : pyJsonLoads "-1.5e3" = some (.jnum "-1.5e3") := rfl
example : pyJsonLoads "01" = none := rfl
example : pyDeleteAll "```json" "```json\nx\n```" = "\nx\n```" := rfl
example : pyStrip "  a b\n" = "a b" := rfl

/-- The external collaborators of the pipeline, abstracted as oracles.  An
`Option` result models the corresponding Python call raising an exception
(`none`) or returning normally (`some`): `pdfOpens` is the success of
`fitz.open(stream=..., filetype="pdf")`, `imgDecodes` the success of
`PIL.Image.open` followed by `verify()`, `pdfRender` the PNG bytes of the
first page produced by `load_page(0).get_pixmap().tobytes("png")` (`none`
when any of those steps throws), `probeText` the `response.text` of the
transcription inference call (also `none` when `PIL.Image.open` on the
buffer throws inside the same `try`), and `extractText` the `response.text`
of the structured-extraction inference call. -/
structure Oracles where
  pdfOpens : Bytes → Bool
  imgDecodes : Bytes → Bool
  pdfRender : Bytes → Option Bytes
  probeText : Bytes → Option String
  extractText : Bytes → String → Option String

/-- Embeds `validate_pdf` (main.py lines 34-43): returns `False` outright
when the lowercased filename does not end in `".pdf"`, otherwise reports
whether `fitz.open` succeeds on the buffer. -/
def validate_pdf (o : Oracles) (filename : String) (content : Bytes) : Bool :=
  if !pyEndsWith (pyLower filename) ".pdf" then false
  else o.pdfOpens content

/-- Embeds `validate_image` (main.py lines 45-52): the filename parameter is
accepted but unused; the result is whether PIL can decode and verify the
buffer. -/
def validate_image (o : Oracles) (filename : String) (content : Bytes) : Bool :=
  o.imgDecodes content

/-- Embeds `convert_pdf_to_image` (main.py lines 54-65): renders page 0 of
the PDF to PNG bytes, returning `None` when any step raises. -/
def convert_pdf_to_image (o : Oracles) (pdf_content : Bytes) : Option Bytes :=
  o.pdfRender pdf_content

/-- Embeds `extract_text_from_image` (main.py lines 67-78): on success the
stripped `response.text` is returned; any exception inside the `try` (image
decoding or the inference call) is caught and yields the empty string. -/
def extract_text_from_image (o : Oracles) (image_source : Bytes) : String :=
  match o.probeText image_source with
  | some t => pyStrip t
  | none => ""

/-- The AADHAAR keyword list of `detect_document_type` (main.py line 83). -/
def aadhaarKeywords : List String :=
  ["aadhaar", "uidai", "govt of india", "government of india"]

/-- The MARKSHEET keyword list of `detect_document_type` (main.py line 86). -/
def marksheetKeywords : List String :=
  ["marksheet", "roll number", "exam", "grade", "school", "university"]

/-- The TRANSFER_CERTIFICATE keyword list of `detect_document_type` (main.py
line 89), including the all-uppercase duplicate present in the source. -/
def tcKeywords : List String :=
  ["transfer certificate", "TRANSFER CERTIFICATE", "tc number",
   "admission number", "conduct", "reason for leaving"]

/-- Embeds `detect_document_type` (main.py lines 80-92): lowercases the text
once, then tests the three keyword lists in order, returning the first
category with a matching keyword and `"unknown"` otherwise. -/
def detect_document_type (text : String) : String :=
  let text_lower := pyLower text
  if aadhaarKeywords.any (fun keyword => hasSub keyword.data text_lower.data) then "aadhaar"
  else if marksheetKeywords.any (fun keyword => hasSub keyword.data text_lower.data) then "marksheet"
  else if tcKeywords.any (fun keyword => hasSub keyword.data text_lower.data) then "tc"
  else "unknown"

/-- The code-fence normalization applied by the extraction helper (main.py
lines 100-101): strip, delete every occurrence of "```json" and then of
"```", and strip again. -/
def normalizeResp (s : String) : String :=
  pyStrip (pyDeleteAll "```" (pyDeleteAll "```json" (pyStrip s)))

/-- Embeds the module-level extraction helper `extract_data` (main.py lines
94-105): on a successful inference call the response text is fence-normalized
and handed to `json.loads`; any exception inside the `try` (image decoding,
the inference call, or JSON decoding) is caught and yields `None`. -/
def extract_data (o : Oracles) (image_source : Bytes) (prompt : String) : Option JsonVal :=
  match o.extractText image_source prompt with
  | none => none
  | some t => pyJsonLoads (normalizeResp (pyStrip t))

/-- The Aadhaar extraction prompt (main.py lines 140-166). -/
def aadhaarPrompt : String :=
  "\n            Analyze this Aadhaar card image and extract the following details:\n            - Full name\n            - Date of birth\n            - Gender\n            - Aadhaar number\n            - Address\n            -S/O, D/O\n            Return the information in this JSON format:\n            \x7b\n                \"name\": \"\",\n                \"date_of_birth\": \"\",\n                \"date_of_birth_year\": \"\",\n                \"gender\": \"\",\n                \"aadhaar_number\": \"\",\n                \"address\": \"\",\n                \"Parent\": \"\",\n            \x7d\n\n            Guidelines:\n            - Extract data exactly as printed on the card\n            - Ensure Aadhaar number is 12 digits without spaces\n            - Date of birth should be Null if not available day, month, year\n            - Address should include all components (e.g., house number, street, city, state, PIN)\n\n            Return only the JSON object, no additional text.\n            "

/-- The marksheet/TC extraction prompt (main.py lines 168-179). -/
def marksheetPrompt : String :=
  "\n            Analyze the given marksheet image and extract the following details in JSON format:\n\n            Full Name: Extract the student\x27s full name from the marksheet.\n            Hall Ticket Number: Look for fields labeled as \"Hall Ticket Number,\" \"Roll Number,\" \"Registered Number,\" or similar variations.\n            Board of Education: Identify the course or board of education mentioned (e.g., \"SSC Board,\" \"CBSE,\" \"ICSE,\" etc.).\n            Religion (if available): Extract the religion of the student if explicitly mentioned.(if available)\n            Total Marks : extract the total marks mentioned in the document. Or calculate the total marks based on the marks obtained in each subject.\n            Identifying Marks (Moles) (if available): Look for identifying marks, moles, or physical features mentioned.(if available)\n            Mother’s Name: Extract the mother’s name from the document.\n            Father’s Name: Extract the father’s name from the document.\n            "

/-- Tags for the module-level `def` statements of main.py, in source order. -/
inductive TopDef where
  | validatePdfDef : TopDef
  | validateImageDef : TopDef
  | convertDef : TopDef
  | extractTextDef : TopDef
  | detectDef : TopDef
  | helperDef : TopDef
  | routeDef : TopDef
deriving DecidableEq

/-- The module-level name bindings of main.py in execution order: each `def`
statement (re)binds its name in the module globals.  The extraction helper at
line 94 and the route handler at lines 107-108 both bind `extract_data`; the
handler binds it last. -/
def moduleBindings : List (String × TopDef) :=
  [("validate_pdf", .validatePdfDef),
   ("validate_image", .validateImageDef),
   ("convert_pdf_to_image", .convertDef),
   ("extract_text_from_image", .extractTextDef),
   ("detect_document_type", .detectDef),
   ("extract_data", .helperDef),
   ("extract_data", .routeDef)]

/-- Python global-name lookup at call time: the latest binding wins. -/
def lookupGlobal (n : String) : Option TopDef :=
  (moduleBindings.reverse.find? (fun p => p.1 == n)).map Prod.snd

/-- The Python exceptions relevant to the handler: `AttributeError` from
attribute access on `str`, `TypeError` from calling a function with the wrong
arity, and FastAPI's `HTTPException` carrying a status code and detail. -/
inductive PyExn where
  | attributeError (msg : String) : PyExn
  | typeError (msg : String) : PyExn
  | httpException (statusCode : Nat) (detail : String) : PyExn

/-- The value bound to the handler's `file` parameter.  The route declares
`file: str` (main.py line 108), so FastAPI binds the path segment as a plain
string (`asStr`); `asUpload` models a file-like object carrying a filename
and contents, which is what the handler body assumes it received (the §6
inbound contract `handle(fileBytes, filename)`). -/
inductive PyFile where
  | asStr (s : String) : PyFile
  | asUpload (filename : String) (content : Bytes) : PyFile

/-- `file.read()` (main.py line 114): Python `str` has no `read` attribute,
so the access raises `AttributeError` on a string-bound parameter. -/
def fileRead : PyFile → Except PyExn Bytes
  | .asStr _ => .error (.attributeError "\x27str\x27 object has no attribute \x27read\x27")
  | .asUpload _ content => .ok content

/-- `file.filename` (first reached at main.py line 117): also an
`AttributeError` on a string-bound parameter. -/
def fileFilenameAttr : PyFile → Except PyExn String
  | .asStr _ => .error (.attributeError "\x27str\x27 object has no attribute \x27filename\x27")
  | .asUpload filename _ => .ok filename

/-- External-call tags recorded by a pipeline run: the two format checks, the
PDF rasterization, the transcription inference call, the classification step,
and the structured-extraction helper call. -/
inductive ExtCall where
  | pdfCheck : ExtCall
  | imgCheck : ExtCall
  | rasterize : ExtCall
  | probe : ExtCall
  | classify : ExtCall
  | extract : ExtCall
deriving DecidableEq

/-- Body of a handler response: the success payload of main.py line 194 or an
error object as produced by the two `except` clauses. -/
inductive RespBody where
  | success (document_type : String) (data : JsonVal) : RespBody
  | errorMsg (msg : String) : RespBody

/-- An HTTP response: status code plus JSON body. -/
structure Response where
  status : Nat
  body : RespBody

/-- The detail string of the unsupported-format error (main.py line 123). -/
def unsupportedDetail : String := "Unsupported file format. Upload a valid PDF or image."

/-- The detail string of the unrecognized-document error (main.py line 183). -/
def unrecognizedDetail : String :=
  "Could not detect document type. Ensure it\x27s an Aadhaar card or marksheet."

/-- The message of the `TypeError` raised at main.py line 187 when the call
`extract_data(img_data, prompt)` resolves to the single-parameter route
handler rather than the shadowed two-parameter helper. -/
def arityErrDetail : String := "extract_data() takes 1 positional argument but 2 were given"

/-- The structured-extraction step (main.py lines 186-194).  The call
`extract_data(img_data, prompt)` resolves through the module globals; the
name is bound to the route handler itself, so the call raises a `TypeError`.
Had the name still denoted the helper, the helper would run (appending an
`extract` call to the trace) and its falsy results would raise the
400 `HTTPException` of lines 188-192. -/
def extractionStage (o : Oracles) (filename : String) (img_data : Bytes)
    (prompt : String) (document_type : String) (calls : List ExtCall) :
    Except PyExn Response × List ExtCall :=
  match lookupGlobal "extract_data" with
  | some .helperDef =>
    let extracted_data := extract_data o img_data prompt
    let calls2 := calls ++ [ExtCall.extract]
    match extracted_data with
    | none =>
      (.error (.httpException 400 ("Failed to extract data from " ++ filename)), calls2)
    | some v =>
      if jsonTruthy v then (.ok ⟨200, .success document_type v⟩, calls2)
      else (.error (.httpException 400 ("Failed to extract data from " ++ filename)), calls2)
  | _ => (.error (.typeError arityErrDetail), calls)

/-- The handler body inside the `try` block, from the format checks on
(main.py lines 117-194), given the file contents and filename, together with
the trace of external calls it performed. -/
def tryBody (o : Oracles) (filename : String) (file_content : Bytes) :
    Except PyExn Response × List ExtCall :=
  let is_pdf := validate_pdf o filename file_content
  let is_image := validate_image o filename file_content
  if !(is_pdf || is_image) then
    (.error (.httpException 400 unsupportedDetail), [ExtCall.pdfCheck, ExtCall.imgCheck])
  else
    let img_data := if is_pdf then convert_pdf_to_image o file_content else some file_content
    let calls1 := if is_pdf then [ExtCall.pdfCheck, ExtCall.imgCheck, ExtCall.rasterize]
                  else [ExtCall.pdfCheck, ExtCall.imgCheck]
    match img_data with
    | none => (.error (.httpException 400 ("Failed to process " ++ filename)), calls1)
    | some img =>
      let extracted_text := extract_text_from_image o img
      let calls2 := calls1 ++ [ExtCall.probe, ExtCall.classify]
      let document_type := detect_document_type extracted_text
      if document_type == "aadhaar" then
        extractionStage o filename img aadhaarPrompt document_type calls2
      else if document_type == "marksheet" || document_type == "tc" then
        extractionStage o filename img marksheetPrompt document_type calls2
      else
        (.error (.httpException 400 unrecognizedDetail), calls2)

/-- The `except` clauses (main.py lines 196-200): an `HTTPException` becomes
a JSON error response with its own status code, any other exception a 500
response carrying `str(e)`. -/
def exceptToResponse : Except PyExn Response → Response
  | .ok r => r
  | .error (.httpException st d) => ⟨st, .errorMsg d⟩
  | .error (.attributeError m) => ⟨500, .errorMsg m⟩
  | .error (.typeError m) => ⟨500, .errorMsg m⟩

/-- The full route handler for `GET /extract-data/\x7bfile:path\x7d` (main.py
lines 107-200): reads the file object (the first statement of the `try`
block), then runs the pipeline body, mapping exceptions to responses. -/
def extract_data_route (o : Oracles) (file : PyFile) : Response × List ExtCall :=
  match fileRead file with
  | .error e => (exceptToResponse (.error e), [])
  | .ok file_content =>
    match fileFilenameAttr file with
    | .error e => (exceptToResponse (.error e), [])
    | .ok filename =>
      let out := tryBody o filename file_content
      (exceptToResponse out.1, out.2)

/-! ## Shared helper lemmas and concrete oracle instantiations -/

/-- Stripping the empty string is the identity on it. -/
theorem pyStrip_empty : pyStrip "" = "" := rfl

/-- The module-global name `extract_data` resolves to the route handler,
because the handler's `def` executes after the helper's. -/
theorem lookupGlobal_extract_data : lookupGlobal "extract_data" = some TopDef.routeDef := rfl

/-- Since the name `extract_data` resolves to the route handler, the
extraction stage always raises the arity `TypeError` and performs no
extraction call. -/
theorem extractionStage_eq (o : Oracles) (filename : String) (img_data : Bytes)
    (prompt : String) (document_type : String) (calls : List ExtCall) :
    extractionStage o filename img_data prompt document_type calls =
      (.error (.typeError arityErrDetail), calls) := rfl

/-- A prefix relation carries membership: every character of the leading list
occurs in the list it leads. -/
theorem listLeads_mem {n h : List Char} (hl : listLeads n h = true) :
    ∀ c ∈ n, c ∈ h := by
  induction n generalizing h with
  | nil => intro c hc; cases hc
  | cons a as ih =>
    cases h with
    | nil => simp [listLeads] at hl
    | cons b bs =>
      simp only [listLeads, Bool.and_eq_true, beq_iff_eq] at hl
      intro c hc
      rcases List.mem_cons.mp hc with rfl | hc'
      · exact List.mem_cons.mpr (Or.inl hl.1)
      · exact List.mem_cons.mpr (Or.inr (ih hl.2 c hc'))

/-- A substring occurrence carries membership: every character of the needle
occurs in the haystack. -/
theorem hasSub_mem {n h : List Char} (hs : hasSub n h = true) :
    ∀ c ∈ n, c ∈ h := by
  induction h with
  | nil =>
    cases n with
    | nil => intro c hc; cases hc
    | cons a as => simp [hasSub, listLeads] at hs
  | cons b bs ih =>
    simp only [hasSub, Bool.or_eq_true] at hs
    rcases hs with h1 | h2
    · exact listLeads_mem h1
    · exact fun c hc => List.mem_cons.mpr (Or.inr (ih h2 c hc))

/-- ASCII lowercasing never produces the uppercase letter `T`. -/
theorem toLower_ne_T (d : Char) : Char.toLower d ≠ 'T' := by
  intro h
  unfold Char.toLower at h
  have h' : (if d.toNat ≥ 65 ∧ d.toNat ≤ 90 then Char.ofNat (d.toNat + 32) else d) = 'T' := h
  clear h
  split at h'
  · rename_i hcond
    obtain ⟨h65, h90⟩ := hcond
    set n := d.toNat with hn
    interval_cases n <;> exact absurd h' (by decide)
  · rename_i hcond
    subst h'
    exact hcond (by constructor <;> decide)

/-- An oracle on which every external call fails or rejects. -/
def oAllFail : Oracles :=
  { pdfOpens := fun _ => false, imgDecodes := fun _ => false,
    pdfRender := fun _ => none, probeText := fun _ => none,
    extractText := fun _ _ => none }

/-- An oracle whose PDF parser opens every buffer successfully. -/
def oPdfAlwaysOpens : Oracles :=
  { oAllFail with pdfOpens := fun _ => true }

/-- An oracle whose extraction inference call answers with the JSON array
text `[1]`. -/
def oRespArr : Oracles :=
  { oAllFail with extractText := fun _ _ => some "[1]" }

/-- An oracle whose extraction inference call answers with the number
text `1`. -/
def oRespOne : Oracles :=
  { oAllFail with extractText := fun _ _ => some "1" }

/-- An oracle whose extraction inference call answers with a fenced JSON
object. -/
def oRespFenced : Oracles :=
  { oAllFail with extractText := fun _ _ => some "```json\n\x7b\"name\": \"X\"\x7d\n```" }

/-- An oracle whose extraction inference call answers with a JSON object
containing triple backticks inside a string value. -/
def oRespTicks : Oracles :=
  { oAllFail with extractText := fun _ _ => some "\x7b\"a\": \"x```y\"\x7d" }

/-! ## Claim theorems -/

/-- Claim C1: every request to the `GET /extract-data/\x7bfile\x7d` endpoint
produces a 500 response.  The path parameter is bound as a string, so the
very first statement `file.read()` raises `AttributeError`, which only the
generic exception handler catches; the empty call trace shows that no input
reaches the format checks, the classification, or the extraction steps. -/
theorem c1_route_handler_always_500 (o : Oracles) (s : String) :
    extract_data_route o (.asStr s) =
      ({ status := 500,
         body := .errorMsg "\x27str\x27 object has no attribute \x27read\x27" }, []) := rfl

/-- Counterexample to claim C2: a buffer that the PDF-structure parser opens
successfully (the oracle accepts every buffer) is still not classified as PDF
when the filename lacks the `.pdf` extension, so the extension hint does
override a successful structural parse. -/
theorem c2_filename_gate_cex :
    oPdfAlwaysOpens.pdfOpens [37, 80, 68, 70] = true ∧
      validate_pdf oPdfAlwaysOpens "doc.txt" [37, 80, 68, 70] = false :=
  ⟨rfl, rfl⟩

/-- Claim C2 as amended: `validate_pdf` classifies a buffer as PDF exactly
when the lowercased filename ends in `.pdf` and the PDF-structure parser
opens the buffer; the extension check is a hard gate evaluated first, not an
advisory hint. -/
theorem c2_validate_pdf_characterization (o : Oracles) (filename : String) (content : Bytes) :
    validate_pdf o filename content =
      (pyEndsWith (pyLower filename) ".pdf" && o.pdfOpens content) := by
  unfold validate_pdf
  cases h : pyEndsWith (pyLower filename) ".pdf" <;> simp [h]

/-- Counterexample to claim C3: for the inference response `[1]`, which
parses to a non-object JSON value, the extraction helper does return it as
the result (and the value is truthy, so the route's `if not extracted_data`
check would not reject it either). -/
theorem c3_nonobject_value_returned_cex :
    extract_data oRespArr [] "p" = some (.jarr [.jnum "1"]) ∧
      isObj (JsonVal.jarr [JsonVal.jnum "1"]) = false ∧
      jsonTruthy (JsonVal.jarr [JsonVal.jnum "1"]) = true :=
  ⟨rfl, rfl, rfl⟩

/-- Claim C3 as amended: the extraction helper fails (returns `None`) when
the inference capability returns no response or a response that is not
well-formed JSON after stripping code-fence markup, but it performs no
object-shape check: any successfully parsed JSON value, object or not, is
returned as the result unchanged. -/
theorem c3_extractor_parse_behavior (o : Oracles) (img : Bytes) (prompt : String) :
    (o.extractText img prompt = none → extract_data o img prompt = none) ∧
      (∀ s, o.extractText img prompt = some s →
        extract_data o img prompt = pyJsonLoads (normalizeResp (pyStrip s))) := by
  constructor
  · intro h; simp [extract_data, h]
  · intro s h; simp [extract_data, h]

/-- Witness for the amended claim C3 at concrete inputs. -/
theorem c3_extractor_parse_behavior_w :
    extract_data oAllFail [] "p" = none ∧
      extract_data oRespOne [] "p" = pyJsonLoads (normalizeResp (pyStrip "1")) :=
  ⟨(c3_extractor_parse_behavior oAllFail [] "p").1 rfl,
   (c3_extractor_parse_behavior oRespOne [] "p").2 "1" rfl⟩

/-- Claim C8: for the fenced inference response, the code-fence markup and
surrounding whitespace are stripped and the parsed result is exactly the
object with field `name` mapped to `X`. -/
theorem c8_code_fence_stripping :
    normalizeResp (pyStrip "```json\n\x7b\"name\": \"X\"\x7d\n```") = "\x7b\"name\": \"X\"\x7d" ∧
      extract_data oRespFenced [] "p" = some (.jobj [("name", .jstr "X")]) :=
  ⟨rfl, rfl⟩

/-- Claim C9: the fence normalization deletes every occurrence of "```json"
and "```", not only surrounding delimiters.  For the well-formed JSON
response with triple backticks inside a string value (which has no
surrounding fences, so parsing it with only surrounding fences removed is
parsing it as is), the extractor parses a different value: the backticks are
deleted from inside the string. -/
theorem c9_fence_removal_inside_strings :
    extract_data oRespTicks [] "p" = some (.jobj [("a", .jstr "xy")]) ∧
      pyJsonLoads "\x7b\"a\": \"x```y\"\x7d" = some (.jobj [("a", .jstr "x```y")]) ∧
      JsonVal.jobj [("a", JsonVal.jstr "xy")] ≠ JsonVal.jobj [("a", JsonVal.jstr "x```y")] := by
  refine ⟨rfl, rfl, ?_⟩
  simp

/-- Claim C4: the classifier evaluates the keyword sets in the fixed order
AADHAAR, MARKSHEET, TRANSFER_CERTIFICATE with the first match winning: a text
matching both an AADHAAR and a MARKSHEET keyword is classified `aadhaar`, and
a text matching a MARKSHEET and a TRANSFER_CERTIFICATE keyword but no AADHAAR
keyword is classified `marksheet`. -/
theorem c4_classifier_priority_order (text : String) :
    ((aadhaarKeywords.any fun k => hasSub k.data (pyLower text).data) = true →
      (marksheetKeywords.any fun k => hasSub k.data (pyLower text).data) = true →
      detect_document_type text = "aadhaar") ∧
    ((aadhaarKeywords.any fun k => hasSub k.data (pyLower text).data) = false →
      (marksheetKeywords.any fun k => hasSub k.data (pyLower text).data) = true →
      (tcKeywords.any fun k => hasSub k.data (pyLower text).data) = true →
      detect_document_type text = "marksheet") := by
  constructor
  · intro ha _; simp [detect_document_type, ha]
  · intro ha hm _; simp [detect_document_type, ha, hm]

/-- Witness for claim C4: a text with both an AADHAAR and a MARKSHEET keyword
is classified `aadhaar`; one with a MARKSHEET and a TRANSFER_CERTIFICATE
keyword but no AADHAAR keyword is classified `marksheet`. -/
theorem c4_classifier_priority_order_w :
    detect_document_type "aadhaar exam" = "aadhaar" ∧
      detect_document_type "exam transfer certificate" = "marksheet" :=
  ⟨(c4_classifier_priority_order "aadhaar exam").1 (by decide) (by decide),
   (c4_classifier_priority_order "exam transfer certificate").2
     (by decide) (by decide) (by decide)⟩

/-- Claim C6: a buffer that fails both the PDF-structure check and the
image-decode check makes the pipeline return the 400 unsupported-format
failure, with a call trace containing only the two format checks: no
rasterization, no transcription probe, and no extraction call happen. -/
theorem c6_unsupported_format_no_calls (o : Oracles) (filename : String) (content : Bytes)
    (hp : o.pdfOpens content = false) (hi : o.imgDecodes content = false) :
    extract_data_route o (.asUpload filename content) =
      ({ status := 400, body := .errorMsg unsupportedDetail },
       [ExtCall.pdfCheck, ExtCall.imgCheck]) := by
  have hvp : validate_pdf o filename content = false := by
    unfold validate_pdf
    cases h : pyEndsWith (pyLower filename) ".pdf" <;> simp [hp]
  have hvi : validate_image o filename content = false := by
    simp [validate_image, hi]
  simp [extract_data_route, fileRead, fileFilenameAttr, tryBody, hvp, hvi, exceptToResponse]

/-- Witness for claim C6 on a concrete rejecting oracle and buffer. -/
theorem c6_unsupported_format_no_calls_w :
    extract_data_route oAllFail (.asUpload "a.bin" [1, 2, 3]) =
      ({ status := 400, body := .errorMsg unsupportedDetail },
       [ExtCall.pdfCheck, ExtCall.imgCheck]) :=
  c6_unsupported_format_no_calls oAllFail "a.bin" [1, 2, 3] rfl rfl

/-- No keyword of any of the three registered keyword sets occurs as a
case-insensitive substring of the text (both keyword and text lowercased). -/
def noRegisteredKeyword (text : String) : Bool :=
  (aadhaarKeywords ++ marksheetKeywords ++ tcKeywords).all
    (fun k => !hasSub (pyLower k).data (pyLower text).data)

/-- When no registered keyword occurs case-insensitively, the classifier
returns `"unknown"`.  The all-uppercase duplicate entry in the source's TC
list can never match the lowercased text, because ASCII lowercasing never
produces an uppercase letter. -/
theorem detect_unknown_of_no_kw (text : String)
    (h : noRegisteredKeyword text = true) :
    detect_document_type text = "unknown" := by
  have hall : ∀ k ∈ aadhaarKeywords ++ marksheetKeywords ++ tcKeywords,
      hasSub (pyLower k).data (pyLower text).data = false := by
    intro k hk
    have := List.all_eq_true.mp h k hk
    simpa using this
  have hTCU : hasSub "TRANSFER CERTIFICATE".data (pyLower text).data = false := by
    cases hx : hasSub "TRANSFER CERTIFICATE".data (pyLower text).data
    · rfl
    · exfalso
      have hT : 'T' ∈ "TRANSFER CERTIFICATE".data := by decide
      have hmem : 'T' ∈ text.data.map Char.toLower := hasSub_mem hx 'T' hT
      obtain ⟨d, _, hd⟩ := List.mem_map.mp hmem
      exact toLower_ne_T d hd
  have ha : (aadhaarKeywords.any fun keyword => hasSub keyword.data (pyLower text).data) = false := by
    simp only [aadhaarKeywords, List.any_cons, List.any_nil, Bool.or_eq_false_iff]
    exact ⟨hall "aadhaar" (by decide), hall "uidai" (by decide),
      hall "govt of india" (by decide), hall "government of india" (by decide), trivial⟩
  have hm : (marksheetKeywords.any fun keyword => hasSub keyword.data (pyLower text).data) = false := by
    simp only [marksheetKeywords, List.any_cons, List.any_nil, Bool.or_eq_false_iff]
    exact ⟨hall "marksheet" (by decide), hall "roll number" (by decide),
      hall "exam" (by decide), hall "grade" (by decide),
      hall "school" (by decide), hall "university" (by decide), trivial⟩
  have ht : (tcKeywords.any fun keyword => hasSub keyword.data (pyLower text).data) = false := by
    simp only [tcKeywords, List.any_cons, List.any_nil, Bool.or_eq_false_iff]
    exact ⟨hall "transfer certificate" (by decide), hTCU,
      hall "tc number" (by decide), hall "admission number" (by decide),
      hall "conduct" (by decide), hall "reason for leaving" (by decide), trivial⟩
  simp [detect_document_type, ha, hm, ht]

/-- Claim C5: when no registered keyword occurs case-insensitively in the
transcribed text, the classifier returns `"unknown"`, and the pipeline then
fails with the unrecognized-document-type error at status 400 before any
extraction attempt, on both the image path and the PDF path (the trace ends
at the classification step and contains no `extract` call). -/
theorem c5_unknown_category_400 :
    (∀ text, noRegisteredKeyword text = true → detect_document_type text = "unknown") ∧
    (∀ (o : Oracles) (filename : String) (content : Bytes),
      validate_pdf o filename content = false →
      validate_image o filename content = true →
      noRegisteredKeyword (extract_text_from_image o content) = true →
      extract_data_route o (.asUpload filename content) =
        ({ status := 400, body := .errorMsg unrecognizedDetail },
         [ExtCall.pdfCheck, ExtCall.imgCheck, ExtCall.probe, ExtCall.classify])) ∧
    (∀ (o : Oracles) (filename : String) (content img : Bytes),
      validate_pdf o filename content = true →
      convert_pdf_to_image o content = some img →
      noRegisteredKeyword (extract_text_from_image o img) = true →
      extract_data_route o (.asUpload filename content) =
        ({ status := 400, body := .errorMsg unrecognizedDetail },
         [ExtCall.pdfCheck, ExtCall.imgCheck, ExtCall.rasterize,
          ExtCall.probe, ExtCall.classify])) := by
  refine ⟨detect_unknown_of_no_kw, ?_, ?_⟩
  · intro o filename content hvp hvi hkw
    have hdt := detect_unknown_of_no_kw _ hkw
    simp [extract_data_route, fileRead, fileFilenameAttr, tryBody, hvp, hvi, hdt,
      exceptToResponse]
  · intro o filename content img hvp hconv hkw
    have hdt := detect_unknown_of_no_kw _ hkw
    simp [extract_data_route, fileRead, fileFilenameAttr, tryBody, hvp, hconv, hdt,
      exceptToResponse]

/-- An oracle that decodes every buffer as an image and transcribes it to a
text containing no registered keyword. -/
def oProbeZzz : Oracles :=
  { oAllFail with imgDecodes := fun _ => true, probeText := fun _ => some "zzz" }

/-- Witness for claim C5 on a concrete oracle whose transcription contains no
registered keyword. -/
theorem c5_unknown_category_400_w :
    detect_document_type "zzz" = "unknown" ∧
      extract_data_route oProbeZzz (.asUpload "a.png" [7]) =
        ({ status := 400, body := .errorMsg unrecognizedDetail },
         [ExtCall.pdfCheck, ExtCall.imgCheck, ExtCall.probe, ExtCall.classify]) :=
  ⟨c5_unknown_category_400.1 "zzz" (by decide),
   c5_unknown_category_400.2.1 oProbeZzz "a.png" [7] (by decide) (by decide) (by decide)⟩

/-- Claim C7: the text prober never propagates a failure.  First, any failure
of the inference call (modelled by `none`) yields the empty string.  Second,
at pipeline level, running the handler with a prober whose inference call
always fails is indistinguishable from running it with a prober that returns
an empty transcription: the PROBED stage cannot fail the request. -/
theorem c7_prober_never_fails :
    (∀ (o : Oracles) (img : Bytes), o.probeText img = none →
      extract_text_from_image o img = "") ∧
    (∀ (o : Oracles) (filename : String) (content : Bytes),
      o.probeText = (fun _ => none) →
      extract_data_route o (.asUpload filename content) =
        extract_data_route { o with probeText := fun _ => some "" }
          (.asUpload filename content)) := by
  constructor
  · intro o img h
    simp [extract_text_from_image, h]
  · intro o filename content h
    have hempty : detect_document_type "" = "unknown" := rfl
    simp [extract_data_route, fileRead, fileFilenameAttr, tryBody, validate_pdf,
      validate_image, convert_pdf_to_image, extract_text_from_image, h, pyStrip_empty,
      hempty]

/-- Witness for claim C7: concrete prober failure yields the empty string
and the concrete pipeline runs coincide. -/
theorem c7_prober_never_fails_w :
    extract_text_from_image oAllFail [1] = "" ∧
      extract_data_route oAllFail (.asUpload "a.bin" [1]) =
        extract_data_route { oAllFail with probeText := fun _ => some "" }
          (.asUpload "a.bin" [1]) :=
  ⟨c7_prober_never_fails.1 oAllFail [1] rfl,
   c7_prober_never_fails.2 oAllFail "a.bin" [1] rfl⟩

/-- No branch of the handler body ever records a call to the extraction
helper: the name `extract_data` resolves to the route handler, so the
extraction stage raises a `TypeError` instead of invoking the helper. -/
theorem tryBody_trace_no_extract (o : Oracles) (filename : String) (content : Bytes) :
    ExtCall.extract ∉ (tryBody o filename content).2 := by
  simp only [tryBody, extractionStage_eq]
  split
  · simp
  · split
    · split <;> simp
    · split
      · split <;> simp
      · split
        · split <;> simp
        · split <;> simp

/-- Claim C10: the `def` of the route handler rebinds the module-level name
`extract_data` previously bound to the two-argument helper, so the call at
main.py line 187 resolves to the route handler itself; consequently the
structured-extraction helper is never invoked during request handling (no
run's call trace contains an `extract` call). -/
theorem c10_helper_shadowed_by_route :
    lookupGlobal "extract_data" = some TopDef.routeDef ∧
      ∀ (o : Oracles) (f : PyFile),
        List.elem ExtCall.extract (extract_data_route o f).2 = false := by
  refine ⟨rfl, ?_⟩
  intro o f
  have h : ExtCall.extract ∉ (extract_data_route o f).2 := by
    cases f with
    | asStr s => simp [extract_data_route, fileRead]
    | asUpload filename content =>
      have h := tryBody_trace_no_extract o filename content
      simpa [extract_data_route, fileRead, fileFilenameAttr] using h
  simp [List.elem_eq_mem, h]
